import Mathlib

/-!
Shallow embedding of the MynaAPI query-routing and RAG-response pipeline
(`app/agents/graph.py`, `app/agents/nodes/{router,tnea,future}_node.py`,
`app/services/{openai,pinecone}_service.py`).

Modelling conventions:
- Python floats become `ℚ` (all confidences in the code are exact decimals,
  and all comparisons performed on them are exact at these values).
- External calls (chat completion, JSON parsing of model output, embedding,
  vector search, answer generation) are passed in as explicit outcome values
  (`Except String _` for fallible calls), so each code path of the service
  layer corresponds to a value of these parameters.
- Python `str.lower` / `str.upper` / substring tests (`kw in s`) are embedded
  as executable functions over the character list of the string.
- Logging calls and timestamps are observability side effects with no
  influence on the data flow; they are not part of the embedding.
-/

namespace Myna

/-! ## String primitives (Python `in`, `lower`, `upper`) -/

/-- Does the character list start with `pat`? -/
def charsStartWith : List Char → List Char → Bool
  | [], _ => true
  | _ :: _, [] => false
  | p :: ps, c :: cs => p == c && charsStartWith ps cs

/-- Does `pat` occur contiguously inside the second list?  Embeds Python's
substring test `pat in s`. -/
def charsContain (pat : List Char) : List Char → Bool
  | [] => pat.isEmpty
  | c :: cs => charsStartWith pat (c :: cs) || charsContain pat cs

/-- Python `pat in s` (substring containment). -/
def strContains (s pat : String) : Bool := charsContain pat.data s.data

/-- Python `s.lower()` (the source only lowercases ASCII text). -/
def strLower (s : String) : String := String.mk (s.data.map Char.toLower)

/-- Python `s.upper()`. -/
def strUpper (s : String) : String := String.mk (s.data.map Char.toUpper)

/-! ## Intent classifier — `OpenAIService.analyze_intent`
(`app/services/openai_service.py`, lines 181-256) -/

/-- The classifier verdict dict `{"intent", "confidence", "reasoning"}`. -/
structure IntentResult where
  intent : String
  confidence : ℚ
  reasoning : String
deriving DecidableEq

/-- `engineering_keywords` list, `openai_service.py` lines 220-225. -/
def engineering_keywords : List String :=
  ["engineering", "computer science", "cs", "it", "information technology",
   "ece", "electronics", "mechanical", "civil", "chemical", "biotechnology",
   "cutoff", "marks", "score", "admission", "seat", "college", "tnea",
   "anna university", "engineering college"]

/-- `medical_keywords` list, `openai_service.py` line 227. -/
def medical_keywords : List String := ["medical", "neet", "mbbs", "doctor", "medicine"]

/-- The keyword-heuristic fallback used when the completion's output is not
valid JSON (`openai_service.py` lines 214-245).  `user_query` is the query,
`response` the raw (non-JSON) completion output. -/
def analyze_intent_heuristic (user_query response : String) : IntentResult :=
  let response_lower := strLower response
  let query_lower := strLower user_query
  let has_engineering_terms := engineering_keywords.any (fun kw => strContains query_lower kw)
  let has_medical_terms := medical_keywords.any (fun kw => strContains query_lower kw)
  if has_medical_terms && !has_engineering_terms then
    { intent := "FUTURE", confidence := 0.8, reasoning := "Detected medical keywords" }
  else if has_engineering_terms || strContains response_lower "tnea" then
    { intent := "TNEA", confidence := 0.8, reasoning := "Detected engineering/admission keywords" }
  else
    let has_marks := ["mark", "score", "point"].any (fun w => strContains query_lower w)
    let has_college := ["college", "admission", "seat", "get"].any (fun w => strContains query_lower w)
    if has_marks && has_college then
      { intent := "TNEA", confidence := 0.7,
        reasoning := "Mentions marks and college - likely engineering admission" }
    else
      { intent := "FUTURE", confidence := 0.5,
        reasoning := "Could not parse JSON, no clear engineering indicators" }

/-- `OpenAIService.analyze_intent` (`openai_service.py` lines 181-256).
`completion` is the outcome of the `_chat_completion` call; `parse_json`
models `json.loads` on the completion's text (`none` = `JSONDecodeError`).
On a completion failure it returns the FUTURE/0.0 verdict naming the error
and never raises. -/
def analyze_intent (user_query : String) (completion : Except String String)
    (parse_json : String → Option IntentResult) : IntentResult :=
  match completion with
  | .error e =>
    { intent := "FUTURE", confidence := 0.0, reasoning := "Error in analysis: " ++ e }
  | .ok response =>
    match parse_json response with
    | some result => result
    | none => analyze_intent_heuristic user_query response

/-! ## Context Retriever — `PineconeService.get_context_for_query`
(`app/services/pinecone_service.py`, lines 44-137) -/

/-- One formatted search match as `search_similar` returns it: the vector id,
the similarity score already rendered to three decimals (Python's
`f"{score:.3f}"`; floating-point rendering itself is outside the embedding),
and the metadata fields read with `.get(..., "")`. -/
structure PMatch where
  vid : String
  scoreStr : String
  text : String
  college_name : String
  cutoff_info : String
deriving DecidableEq

/-- The labelled context block built for match number `i` (0-based), mirroring
`pinecone_service.py` line 123. -/
def format_context_piece (i : Nat) (m : PMatch) : String :=
  "Document " ++ toString (i + 1) ++ " (relevance: " ++ m.scoreStr ++ "):\n" ++
  "College: " ++ m.college_name ++ "\n" ++ m.text ++ "\nCutoff Info: " ++
  m.cutoff_info ++ "\n\n"

/-- The accumulation loop of `get_context_for_query` (lines 113-129): walk the
pieces in order keeping `current_length`; `break` at the first piece whose
addition would exceed `max_context_length`, else append it. -/
def context_parts_loop : List String → Nat → Nat → List String
  | [], _, _ => []
  | piece :: rest, current_length, max_context_length =>
    if current_length + piece.length > max_context_length then []
    else piece :: context_parts_loop rest (current_length + piece.length) max_context_length

/-- Sentinel returned when the search matched no documents (line 109). -/
def no_docs_sentinel : String :=
  "No specific documents found in the knowledge base. This may indicate the index needs to be populated with TNEA data."

/-- Sentinel returned when matches exist but no block was appended (line 131). -/
def no_ctx_sentinel : String := "No relevant context extracted from documents."

/-- `PineconeService.get_context_for_query` (lines 91-137).  `search_result`
is the outcome of `search_similar` (which re-raises every search error, lines
87-89); a search error is re-raised here too (lines 135-137). -/
def get_context_for_query (search_result : Except String (List PMatch))
    (max_context_length : Nat) : Except String String :=
  match search_result with
  | .error e => .error e
  | .ok results =>
    if results.isEmpty then .ok no_docs_sentinel
    else
      let pieces := results.enum.map fun p => format_context_piece p.1 p.2
      let parts := context_parts_loop pieces 0 max_context_length
      .ok (if parts.isEmpty then no_ctx_sentinel else String.join parts)

/-! ## Conversation-thread table — `OpenAIService`
(`app/services/openai_service.py`, lines 10-13, 77-92, 258-268, 335-337) -/

/-- The per-instance state of `OpenAIService`: the lazily created assistant id
and the `active_threads` dict keyed by session id. -/
structure OpenAIServiceState where
  tnea_assistant_id : Option String
  active_threads : List (String × String)
deriving DecidableEq

/-- `get_openai_service` (lines 336-337): a factory that builds a brand-new
`OpenAIService`, whose constructor initialises an empty thread table. -/
def get_openai_service : OpenAIServiceState :=
  { tnea_assistant_id := none, active_threads := [] }

/-- `OpenAIService.get_or_create_thread` (lines 77-92): return the stored
thread id for a known session, else store and return the id of the freshly
created thread (`fresh_thread_id` is the id the thread-creation call returns). -/
def get_or_create_thread (svc : OpenAIServiceState) (session_id fresh_thread_id : String) :
    String × OpenAIServiceState :=
  match svc.active_threads.lookup session_id with
  | some tid => (tid, svc)
  | none =>
    (fresh_thread_id,
     { svc with active_threads := (session_id, fresh_thread_id) :: svc.active_threads })

/-- The guard of `generate_response` (line 264): the Assistant/thread path is
entered only when `session_id` is truthy and differs from `"default"`. -/
def uses_assistant_api (session_id : String) : Bool :=
  !(session_id == "") && !(session_id == "default")

/-- Effect of one `generate_response` call on the thread table: the Assistant
path (lines 264-268, via `generate_response_with_assistant`, line 102) calls
`get_or_create_thread`; the stateless path leaves the table untouched. -/
def generate_response_threads (svc : OpenAIServiceState) (session_id fresh_thread_id : String) :
    OpenAIServiceState :=
  if uses_assistant_api session_id then
    (get_or_create_thread svc session_id fresh_thread_id).2
  else svc

/-- The thread table of the service used by one `TNEANode.process` invocation,
after its `generate_response` call: the node builds its own service via
`get_openai_service()` (`tnea_node.py` line 66) and calls `generate_response`
without a `session_id` argument (lines 67-71), which therefore defaults to
`"default"`. -/
def tnea_node_service_threads (fresh_thread_id : String) : OpenAIServiceState :=
  generate_response_threads get_openai_service "default" fresh_thread_id

/-- The stateless branch of `generate_response` as `TNEANode` reaches it
(lines 276-288): the completion's text on success, an apology naming the error
on failure. -/
def generate_response_stateless (generation : Except String String) : String :=
  match generation with
  | .ok text => text
  | .error e => "I'm sorry, but I encountered an error while processing your request: " ++ e

/-! ## Fallback Responder — `FutureNode._generate_future_response`
(`app/agents/nodes/future_node.py`, lines 69-102) -/

/-- The base capability-scope template (`future_node.py` lines 73-87),
byte for byte including trailing spaces. -/
def future_base_response : String :=
  "Thank you for your query! 🎓\n        \nCurrently, I specialize in helping students with Tamil Nadu Engineering Admissions (TNEA) - \nincluding cutoff marks, college recommendations, and admission guidance.\n\nFor your specific query about other topics, I'm continuously being enhanced to provide \nmore comprehensive educational guidance. \n\nHere's what I can help you with right now:\n✅ TNEA cutoff marks and college selection\n✅ Engineering college recommendations in Tamil Nadu  \n✅ Admission process guidance\n✅ Previous year trends and analysis\n\nIs there anything related to Tamil Nadu engineering admissions I can help you with instead?"

/-- Extra sentence for medical queries (line 93). -/
def future_medical_extra : String :=
  "\n\n💡 I notice you're asking about medical admissions. While I currently focus on engineering admissions, medical admission guidance is planned for future updates!"

/-- Extra sentence for arts/commerce queries (line 96). -/
def future_arts_extra : String :=
  "\n\n💡 I see you're interested in arts/commerce courses. Support for these streams is coming soon!"

/-- Extra sentence for career/placement queries (line 99). -/
def future_career_extra : String :=
  "\n\n💡 Career guidance and placement information features are in development!"

/-- `FutureNode._generate_future_response` (lines 69-102).  The `intent`
argument is accepted (as in the source) but never read. -/
def generate_future_response (query intent : String) : String :=
  let query_lower := strLower query
  if ["medical", "mbbs", "neet"].any (fun w => strContains query_lower w) then
    future_base_response ++ future_medical_extra
  else if ["arts", "commerce", "ba", "bcom"].any (fun w => strContains query_lower w) then
    future_base_response ++ future_arts_extra
  else if ["job", "career", "placement"].any (fun w => strContains query_lower w) then
    future_base_response ++ future_career_extra
  else
    future_base_response

/-- Spec-refinement definition for claim C9, written from the spec's words:
the ordered keyword groups with their extra sentences. -/
def future_keyword_groups : List (List String × String) :=
  [(["medical", "mbbs", "neet"], future_medical_extra),
   (["arts", "commerce", "ba", "bcom"], future_arts_extra),
   (["job", "career", "placement"], future_career_extra)]

/-- Spec-refinement definition for claim C9, written from the spec's words:
the base template, extended by the extra sentence of the first keyword group
that matches the query, unmodified when no group matches. -/
def future_response_spec (query : String) : String :=
  match future_keyword_groups.find? (fun g => g.1.any (fun w => strContains (strLower query) w)) with
  | some g => future_base_response ++ g.2
  | none => future_base_response

/-! ## Routing graph — `RouterNode`, `TNEANode`, `MynaAgentGraph`
(`app/agents/nodes/router_node.py`, `app/agents/nodes/tnea_node.py`,
`app/agents/graph.py`) -/

/-- The outcomes of the external capabilities one `process_query` invocation
consumes, in the order the pipeline awaits them. -/
structure Capabilities where
  completion : Except String String
  parse_json : String → Option IntentResult
  embedding : Except String (List ℚ)
  search : List ℚ → Except String (List PMatch)
  generation : Except String String

/-- The dict-shaped graph state; keys that appear only after a node ran are
`Option`-valued, and reads through `state.get(key, default)` become `getD`. -/
structure AgentState where
  query : String
  user_id : String
  session_id : String
  intent : Option String
  confidence : Option ℚ
  next_node : Option String
  routing_reasoning : Option String
  response : Option String
  context_used : Option String
  processing_node : Option String
  error : Option String

/-- The `initial_state` dict of `MynaAgentGraph.process_query`
(`graph.py` lines 119-125). -/
def init_state (query user_id session_id : String) : AgentState :=
  { query := query, user_id := user_id, session_id := session_id,
    intent := none, confidence := none, next_node := none,
    routing_reasoning := none, response := none, context_used := none,
    processing_node := none, error := none }

/-- `RouterNode.process` (`router_node.py` lines 29-67): classify, uppercase
the verdict's category, and set `next_node` to `"TNEANode"` exactly when the
category is `"TNEA"` with confidence strictly above 0.5.  (The node's own
`except` branch is reachable only through failures of the logging
collaborator, which the embedding leaves out; `analyze_intent` itself never
raises.) -/
def router_process (caps : Capabilities) (st : AgentState) : AgentState :=
  let intent_result := analyze_intent st.query caps.completion caps.parse_json
  let intent := strUpper intent_result.intent
  let confidence := intent_result.confidence
  let next_node := if intent = "TNEA" ∧ (0.5 : ℚ) < confidence then "TNEANode" else "FutureNode"
  { st with intent := some intent, confidence := some confidence,
            next_node := some next_node,
            routing_reasoning := some intent_result.reasoning }

/-- `MynaAgentGraph._route_decision` (`graph.py` lines 84-97). -/
def route_decision (st : AgentState) : String :=
  if st.next_node.getD "future" = "TNEANode" then "tnea" else "future"

/-- `TNEANode._get_query_embedding` (`tnea_node.py` lines 119-137): the real
embedding when the call succeeds with a truthy (non-empty) list, else the
dummy `[0.01] * 1536`. -/
def get_query_embedding (embedding : Except String (List ℚ)) : List ℚ :=
  match embedding with
  | .ok v => if v.isEmpty then List.replicate 1536 0.01 else v
  | .error _ => List.replicate 1536 0.01

/-- The fixed fallback apology of `TNEANode.process` (`tnea_node.py`
lines 99-109), byte for byte including indentation and trailing spaces. -/
def tnea_fallback_response : String :=
  "I apologize, but I'm experiencing some technical difficulties \n            accessing the latest TNEA information. However, I can provide some general guidance:\n            \n            For TNEA (Tamil Nadu Engineering Admissions), students typically need to:\n            1. Check their rank and cutoff marks\n            2. Research colleges and their previous year cutoffs\n            3. Participate in the counseling process\n            4. Choose colleges and courses based on their rank\n            \n            I recommend checking the official TNEA website for the most current information \n            and cutoff details."

/-- `TNEANode.process` (`tnea_node.py` lines 19-117): embed, retrieve context
(budget 2000, the default of `get_context_for_query`), then generate; a
retrieval error reaches the node's `except` branch, which answers with the
fixed fallback apology; `generate_response` is called without a session id,
so it takes the stateless branch and cannot raise. -/
def tnea_process (caps : Capabilities) (st : AgentState) : AgentState :=
  let query_embedding := get_query_embedding caps.embedding
  match get_context_for_query (caps.search query_embedding) 2000 with
  | .error e =>
    { st with response := some tnea_fallback_response,
              processing_node := some "TNEANode", error := some e }
  | .ok context =>
    { st with response := some (generate_response_stateless caps.generation),
              context_used := some context,
              processing_node := some "TNEANode" }

/-- `FutureNode.process` (`future_node.py` lines 17-48): purely local. -/
def future_process (st : AgentState) : AgentState :=
  let intent := st.intent.getD "UNKNOWN"
  { st with response := some (generate_future_response st.query intent),
            processing_node := some "FutureNode" }

/-- One traversal of the compiled graph (`graph.py` lines 23-49): entry at the
router, then the conditional edge to exactly one of the two terminal nodes. -/
def run_graph (caps : Capabilities) (st : AgentState) : AgentState :=
  let st1 := router_process caps st
  if route_decision st1 = "tnea" then tnea_process caps st1 else future_process st1

/-- The dict `MynaAgentGraph.process_query` returns (`graph.py` lines 136-145
and 151-160); `timestamp` and `duration` are wall-clock observability fields
left out of the embedding. -/
structure ProcessingResult where
  response : String
  session_id : String
  processing_node : String
  intent : Option String
  confidence : Option ℚ
  success : Bool
  error : Option String
deriving DecidableEq

/-- The generic apology of the top-level failure boundary (`graph.py` line 152). -/
def graph_error_response : String :=
  "I'm sorry, but I encountered an error while processing your request. Please try again."

/-- `MynaAgentGraph.process_query` (`graph.py` lines 99-160): the single
top-level `try/except` around the traversal.  `graph_outcome` is the outcome
of `self.graph.ainvoke(initial_state)`; the generated uuid session id is the
`session_id` argument. -/
def process_query (session_id : String) (graph_outcome : Except String AgentState) :
    ProcessingResult :=
  match graph_outcome with
  | .ok result =>
    { response := result.response.getD "I'm sorry, I couldn't process your request.",
      session_id := session_id,
      processing_node := result.processing_node.getD "unknown",
      intent := result.intent, confidence := result.confidence,
      success := true, error := none }
  | .error e =>
    { response := graph_error_response, session_id := session_id,
      processing_node := "error", intent := none, confidence := some 0.0,
      success := false, error := some e }

/-! ## Spec-refinement definitions for claim C6 (greedy context assembly,
written from the spec's words) -/

/-- Spec's words: append blocks in order while the running length plus the
next block's length stays within the budget; stop at the first block that
would exceed it. -/
def greedy_blocks : List String → Nat → Nat → List String
  | [], _, _ => []
  | b :: bs, running, budget =>
    if running + b.length ≤ budget then b :: greedy_blocks bs (running + b.length) budget
    else []

/-- Spec's words: the assembled context is the concatenation of the greedily
selected blocks. -/
def greedy_context_spec (blocks : List String) (budget : Nat) : String :=
  String.join (greedy_blocks blocks 0 budget)

/-! ## Concrete instances used by counterexamples and witnesses -/

/-- A match whose metadata fields are empty; its formatted block is 57
characters long. -/
def tiny_match : PMatch :=
  { vid := "doc1", scoreStr := "0.950", text := "", college_name := "", cutoff_info := "" }

/-- A match whose formatted block is exactly 400 characters long
(57 fixed characters plus 343 characters of excerpt). -/
def block400_match : PMatch :=
  { vid := "doc", scoreStr := "0.950", text := String.mk (List.replicate 343 'a'),
    college_name := "", cutoff_info := "" }

/-- Five identical 400-character blocks, the example of the spec. -/
def block400_matches : List PMatch := List.replicate 5 block400_match

/-- The initial graph state of a concrete invocation. -/
def c7_state : AgentState := init_state "q" "u" "s1"

/-- Capability outcomes of a Domain Responder invocation whose retrieval
succeeds with one match and whose generation outcome is `gen`. -/
def c7_caps (gen : Except String String) : Capabilities :=
  { completion := .ok "x", parse_json := fun _ => none, embedding := .ok [1],
    search := fun _ => .ok [tiny_match], generation := gen }

/-! ## Helper lemmas -/

theorem charsStartWith_self (l : List Char) : charsStartWith l l = true := by
  induction l with
  | nil => rfl
  | cons c cs ih => simp [charsStartWith, ih]

theorem charsContain_self (l : List Char) : charsContain l l = true := by
  cases l with
  | nil => rfl
  | cons c cs => simp [charsContain, charsStartWith_self]

theorem charsContain_append (p t : List Char) : charsContain t (p ++ t) = true := by
  induction p with
  | nil => simpa using charsContain_self t
  | cons c cs ih => simp [charsContain, ih]

/-- A string always contains its own final segment: the rationale
`"Error in analysis: " ++ e` names the error `e`. -/
theorem strContains_append (p t : String) : strContains (p ++ t) t = true := by
  show charsContain t.data (p ++ t).data = true
  rw [String.data_append]
  exact charsContain_append p.data t.data

/-- The accumulation loop of the source equals the spec-worded greedy
selection at every accumulator value. -/
theorem context_parts_loop_eq_greedy (pieces : List String) :
    ∀ running budget, context_parts_loop pieces running budget = greedy_blocks pieces running budget := by
  induction pieces with
  | nil => intro running budget; rfl
  | cons p ps ih =>
    intro running budget
    unfold context_parts_loop greedy_blocks
    by_cases h : running + p.length > budget
    · rw [if_pos h, if_neg (by omega)]
    · rw [if_neg h, if_pos (by omega), ih]

/-- A successful search never makes the retriever fail. -/
theorem get_context_ok (ms : List PMatch) (n : Nat) :
    ∃ s, get_context_for_query (.ok ms) n = .ok s := by
  cases ms with
  | nil => exact ⟨no_docs_sentinel, rfl⟩
  | cons a l => exact ⟨_, rfl⟩

/-- Both branches of `TNEANode.process` stamp the node's own name. -/
theorem tnea_process_processing_node (caps : Capabilities) (st : AgentState) :
    (tnea_process caps st).processing_node = some "TNEANode" := by
  unfold tnea_process
  dsimp only
  split <;> rfl

/-- `TNEANode.process` under a retrieval failure. -/
theorem tnea_process_error_response (caps : Capabilities) (st : AgentState) (e : String)
    (h : get_context_for_query (caps.search (get_query_embedding caps.embedding)) 2000 = .error e) :
    (tnea_process caps st).response = some tnea_fallback_response := by
  unfold tnea_process
  dsimp only
  rw [h]

/-- `TNEANode.process` under a successful retrieval. -/
theorem tnea_process_ok_response (caps : Capabilities) (st : AgentState) (s : String)
    (h : get_context_for_query (caps.search (get_query_embedding caps.embedding)) 2000 = .ok s) :
    (tnea_process caps st).response = some (generate_response_stateless caps.generation) := by
  unfold tnea_process
  dsimp only
  rw [h]

/-- The router's routing condition, read off the state it writes. -/
theorem router_process_next_node (caps : Capabilities) (st : AgentState) :
    (router_process caps st).next_node =
      some (if strUpper (analyze_intent st.query caps.completion caps.parse_json).intent = "TNEA" ∧
               (0.5 : ℚ) < (analyze_intent st.query caps.completion caps.parse_json).confidence
            then "TNEANode" else "FutureNode") := rfl

/-- One graph traversal dispatches to exactly one terminal node, selected by
the router's condition. -/
theorem run_graph_eq (caps : Capabilities) (st : AgentState) :
    run_graph caps st =
      if strUpper (analyze_intent st.query caps.completion caps.parse_json).intent = "TNEA" ∧
         (0.5 : ℚ) < (analyze_intent st.query caps.completion caps.parse_json).confidence
      then tnea_process caps (router_process caps st)
      else future_process (router_process caps st) := by
  unfold run_graph route_decision
  dsimp only
  rw [router_process_next_node]
  by_cases h : strUpper (analyze_intent st.query caps.completion caps.parse_json).intent = "TNEA" ∧
      (0.5 : ℚ) < (analyze_intent st.query caps.completion caps.parse_json).confidence
  · simp [h]
  · simp [h]

/-! ## Claim theorems -/

/-- C8: for every budget, a search that returns zero matches makes the
Context Retriever return the non-empty "no documents found" sentinel, never
the empty string. -/
theorem empty_search_returns_sentinel (n : Nat) :
    get_context_for_query (.ok []) n = .ok no_docs_sentinel ∧ no_docs_sentinel ≠ "" :=
  ⟨rfl, by decide⟩

/-- C4 (evaluation at the failing behaviour): the service a `TNEANode.process`
invocation uses is built fresh by `get_openai_service` with an empty thread
table, and its `generate_response` call runs with the default session id, so
after the invocation the thread table is still empty: no conversation-thread
handle exists for any session, hence a second invocation with the same
session id cannot reuse one.  The per-instance lookup of
`get_or_create_thread` does return a stored handle without creating another
(last conjunct), but no invocation ever reaches it. -/
theorem thread_table_never_reused (fresh_thread_id session_id tid : String) :
    get_openai_service.active_threads = [] ∧
    tnea_node_service_threads fresh_thread_id = get_openai_service ∧
    (tnea_node_service_threads fresh_thread_id).active_threads.lookup session_id = none ∧
    get_or_create_thread { tnea_assistant_id := none, active_threads := [(session_id, tid)] }
        session_id fresh_thread_id =
      (tid, { tnea_assistant_id := none, active_threads := [(session_id, tid)] }) := by
  refine ⟨rfl, rfl, rfl, ?_⟩
  simp [get_or_create_thread, List.lookup]

/-- C9: the Fallback Responder is a pure function that ignores the intent
argument (same output for any two intents, hence byte-identical output on
repeated calls), and its output is the base capability-scope template,
extended by the extra sentence of the first matching keyword group in the
fixed order medical, arts/commerce, career/placement, unmodified when no
group matches. -/
theorem fallback_responder_pure_template (q i j : String) :
    generate_future_response q i = generate_future_response q j ∧
    generate_future_response q i = future_response_spec q := by
  refine ⟨rfl, ?_⟩
  unfold generate_future_response future_response_spec future_keyword_groups
  dsimp only
  by_cases h1 : (["medical", "mbbs", "neet"].any fun w => strContains (strLower q) w) = true
  · simp [h1, List.find?]
  · rw [Bool.not_eq_true] at h1
    by_cases h2 : (["arts", "commerce", "ba", "bcom"].any fun w => strContains (strLower q) w) = true
    · simp [h1, h2, List.find?]
    · rw [Bool.not_eq_true] at h2
      by_cases h3 : (["job", "career", "placement"].any fun w => strContains (strLower q) w) = true
      · simp [h1, h2, h3, List.find?]
      · rw [Bool.not_eq_true] at h3
        simp [h1, h2, h3, List.find?]

/-- C3 (counterexample): on the query "Tell me about NEET medical admissions"
the keyword heuristic returns TNEA with confidence 0.8, not the claimed
OTHER/0.8 — the query contains the engineering keyword "admission" (a
substring of "admissions"), so rule 1's "no domain keywords" guard fails. -/
theorem heuristic_neet_admissions_is_domain :
    (analyze_intent_heuristic "Tell me about NEET medical admissions" "not json").intent
      = "TNEA" ∧
    (analyze_intent_heuristic "Tell me about NEET medical admissions" "not json").intent
      ≠ "FUTURE" := by
  constructor <;> decide

/-- C3 (amended): rule 1 of the heuristic as stated — medical keywords present
and no domain keywords present yields the verdict OTHER ("FUTURE") with
confidence 0.8. -/
theorem heuristic_medical_rule (q r : String)
    (hmed : medical_keywords.any (fun kw => strContains (strLower q) kw) = true)
    (heng : engineering_keywords.any (fun kw => strContains (strLower q) kw) = false) :
    analyze_intent_heuristic q r =
      { intent := "FUTURE", confidence := 0.8, reasoning := "Detected medical keywords" } := by
  unfold analyze_intent_heuristic
  dsimp only
  rw [hmed, heng]
  rfl

/-- C3 (witness): the query "Tell me about NEET medical" has medical keywords
and no domain keywords, and the heuristic classifies it OTHER/0.8. -/
theorem heuristic_medical_rule_witness :
    medical_keywords.any (fun kw => strContains (strLower "Tell me about NEET medical") kw) = true ∧
    engineering_keywords.any (fun kw => strContains (strLower "Tell me about NEET medical") kw) = false ∧
    analyze_intent_heuristic "Tell me about NEET medical" "not json" =
      { intent := "FUTURE", confidence := 0.8, reasoning := "Detected medical keywords" } :=
  ⟨by decide, by decide, heuristic_medical_rule _ _ (by decide) (by decide)⟩

/-- C10: when the search returns at least one match but already the first
formatted block is longer than the budget, the Context Retriever returns the
"no relevant context" sentinel — which is non-empty and distinct from the
zero-match sentinel. -/
theorem oversized_first_block_sentinel (m : PMatch) (rest : List PMatch) (budget : Nat)
    (h : budget < (format_context_piece 0 m).length) :
    get_context_for_query (.ok (m :: rest)) budget = .ok no_ctx_sentinel ∧
    no_ctx_sentinel ≠ "" ∧ no_ctx_sentinel ≠ no_docs_sentinel := by
  refine ⟨?_, by decide, by decide⟩
  have hloop :
      context_parts_loop (((m :: rest).enum).map fun p => format_context_piece p.1 p.2)
        0 budget = [] := by
    show context_parts_loop
        (format_context_piece 0 m :: ((rest.enumFrom 1).map fun p => format_context_piece p.1 p.2))
        0 budget = []
    unfold context_parts_loop
    rw [if_pos (by omega)]
  unfold get_context_for_query
  dsimp only
  rw [hloop]
  rfl

/-- C10 (witness): with an empty-metadata match (57-character block) and a
budget of 10, the retriever returns the "no relevant context" sentinel. -/
theorem oversized_first_block_witness :
    10 < (format_context_piece 0 tiny_match).length ∧
    (get_context_for_query (.ok [tiny_match]) 10 = .ok no_ctx_sentinel ∧
     no_ctx_sentinel ≠ "" ∧ no_ctx_sentinel ≠ no_docs_sentinel) :=
  ⟨by decide, oversized_first_block_sentinel tiny_match [] 10 (by decide)⟩

/-- C6 (counterexample): with one match whose 57-character block exceeds a
budget of 10, the assembled context is the non-empty sentinel, not the
concatenation of the (empty) greedy selection of blocks that the claim
predicts for every budget. -/
theorem context_assembly_sentinel_counterexample :
    get_context_for_query (.ok [tiny_match]) 10 = .ok no_ctx_sentinel ∧
    greedy_context_spec [format_context_piece 0 tiny_match] 10 = "" ∧
    no_ctx_sentinel ≠ greedy_context_spec [format_context_piece 0 tiny_match] 10 :=
  ⟨rfl, rfl, by decide⟩

/-- C6 (amended): whenever the greedy selection keeps at least one block, the
assembled context is exactly the concatenation of the greedily selected
blocks — appended in order while the running length plus the next block's
length stays within the budget, stopping at the first block that would exceed
it, never truncating a block. -/
theorem context_assembly_greedy (results : List PMatch) (budget : Nat)
    (h : greedy_blocks ((results.enum).map fun p => format_context_piece p.1 p.2) 0 budget ≠ []) :
    get_context_for_query (.ok results) budget =
      .ok (greedy_context_spec ((results.enum).map fun p => format_context_piece p.1 p.2) budget) := by
  have hres : results.isEmpty = false := by
    cases results with
    | nil => exact absurd rfl h
    | cons a l => rfl
  unfold get_context_for_query greedy_context_spec
  dsimp only
  rw [hres, context_parts_loop_eq_greedy]
  simp only [Bool.false_eq_true, if_false, List.isEmpty_eq_false_iff_exists_mem]
  rw [if_neg (by simpa [List.isEmpty_iff] using h)]

set_option maxRecDepth 40000

/-- C6 (witness): five matches whose formatted blocks are 400 characters each
with a budget of 1000 — the greedy selection keeps exactly the first two
blocks, and the assembled context is their 800-character concatenation. -/
theorem context_assembly_greedy_witness :
    greedy_blocks ((block400_matches.enum).map fun p => format_context_piece p.1 p.2) 0 1000 ≠ [] ∧
    get_context_for_query (.ok block400_matches) 1000 =
      .ok (greedy_context_spec ((block400_matches.enum).map fun p => format_context_piece p.1 p.2) 1000) ∧
    greedy_blocks ((block400_matches.enum).map fun p => format_context_piece p.1 p.2) 0 1000 =
      [format_context_piece 0 block400_match, format_context_piece 1 block400_match] ∧
    (greedy_context_spec ((block400_matches.enum).map fun p => format_context_piece p.1 p.2) 1000).length = 800 :=
  ⟨by decide, context_assembly_greedy block400_matches 1000 (by decide), by decide, by decide⟩

/-- C7 (counterexample): a generation failure is not converted into a fixed
apology string — two different generation errors yield two different
responses, neither equal to the Domain Responder's fixed retrieval-failure
apology; the response names the generation error instead. -/
theorem responder_apology_not_fixed :
    (tnea_process (c7_caps (.error "errA")) c7_state).response ≠
      (tnea_process (c7_caps (.error "errB")) c7_state).response ∧
    (tnea_process (c7_caps (.error "errA")) c7_state).response ≠ some tnea_fallback_response ∧
    (tnea_process (c7_caps (.error "errA")) c7_state).response =
      some "I'm sorry, but I encountered an error while processing your request: errA" :=
  ⟨by decide, by decide, rfl⟩

/-- C7 (amended): a search error propagates out of the Context Retriever
unchanged; the Domain Responder converts a retrieval failure into its fixed
fallback apology and a generation failure into the generator's
error-naming apology — in neither case does an exception surface to the
routing layer (both branches produce a response string). -/
theorem responder_failure_policy (ctx_err gen_err : String) (c : Except String String)
    (pj : String → Option IntentResult) (emb : Except String (List ℚ))
    (g : Except String String) (ms : List PMatch) (st : AgentState) (n : Nat) :
    get_context_for_query (.error ctx_err) n = .error ctx_err ∧
    (tnea_process { completion := c, parse_json := pj, embedding := emb,
                    search := fun _ => .error ctx_err, generation := g } st).response =
      some tnea_fallback_response ∧
    (tnea_process { completion := c, parse_json := pj, embedding := emb,
                    search := fun _ => .ok ms, generation := .error gen_err } st).response =
      some ("I'm sorry, but I encountered an error while processing your request: " ++ gen_err) := by
  refine ⟨rfl, ?_, ?_⟩
  · exact tnea_process_error_response _ st ctx_err rfl
  · obtain ⟨s, hs⟩ := get_context_ok ms 2000
    exact tnea_process_ok_response _ st s hs

/-- C1: for every classifier verdict (every capability outcome and every
initial state), the graph dispatches to the Domain Responder (`TNEANode`)
exactly when the verdict's category is "TNEA" and its confidence strictly
exceeds 0.5, and in every other case to the Fallback Responder
(`FutureNode`). -/
theorem routing_dispatches_domain_iff (caps : Capabilities) (st : AgentState) :
    ((run_graph caps st).processing_node = some "TNEANode" ↔
      strUpper (analyze_intent st.query caps.completion caps.parse_json).intent = "TNEA" ∧
      (0.5 : ℚ) < (analyze_intent st.query caps.completion caps.parse_json).confidence) ∧
    ((run_graph caps st).processing_node = some "TNEANode" ∨
     (run_graph caps st).processing_node = some "FutureNode") := by
  rw [run_graph_eq]
  by_cases h : strUpper (analyze_intent st.query caps.completion caps.parse_json).intent = "TNEA" ∧
      (0.5 : ℚ) < (analyze_intent st.query caps.completion caps.parse_json).confidence
  · rw [if_pos h, tnea_process_processing_node]
    exact ⟨iff_of_true rfl h, Or.inl rfl⟩
  · rw [if_neg h]
    refine ⟨iff_of_false (by simp [future_process]) h, Or.inr rfl⟩

/-- C2: if the completion call fails during intent classification, the
classifier does not raise and returns the OTHER ("FUTURE") verdict with
confidence 0.0 and a rationale that names the error; the pipeline then
completes through the Fallback Responder with success = true. -/
theorem classifier_failure_contract (e q user sid : String)
    (parse : String → Option IntentResult) (emb : Except String (List ℚ))
    (srch : List ℚ → Except String (List PMatch)) (gen : Except String String) :
    analyze_intent q (.error e) parse =
      { intent := "FUTURE", confidence := 0.0, reasoning := "Error in analysis: " ++ e } ∧
    strContains ("Error in analysis: " ++ e) e = true ∧
    (process_query sid (.ok (run_graph
        { completion := .error e, parse_json := parse, embedding := emb,
          search := srch, generation := gen } (init_state q user sid)))).processing_node =
      "FutureNode" ∧
    (process_query sid (.ok (run_graph
        { completion := .error e, parse_json := parse, embedding := emb,
          search := srch, generation := gen } (init_state q user sid)))).success = true :=
  ⟨rfl, strContains_append "Error in analysis: " e, rfl, rfl⟩

/-- C5: every invocation returns exactly one `ProcessingResult` (the boundary
is a total function of the traversal's outcome): on a successful traversal it
reports success with the session id it generated, and its responder field is
the one the routing decision actually selected; on any exception escaping the
traversal the single top-level boundary returns success = false, the generic
apology, responder "error", a null intent, and the causing error. -/
theorem process_query_result_contract (caps : Capabilities) (q u sid e : String) :
    (process_query sid (.ok (run_graph caps (init_state q u sid)))).success = true ∧
    (process_query sid (.ok (run_graph caps (init_state q u sid)))).session_id = sid ∧
    (process_query sid (.ok (run_graph caps (init_state q u sid)))).processing_node =
      (if route_decision (router_process caps (init_state q u sid)) = "tnea"
       then "TNEANode" else "FutureNode") ∧
    process_query sid (.error e) =
      { response := graph_error_response, session_id := sid, processing_node := "error",
        intent := none, confidence := some 0.0, success := false, error := some e } := by
  refine ⟨rfl, rfl, ?_, rfl⟩
  unfold run_graph
  dsimp only
  by_cases h : route_decision (router_process caps (init_state q u sid)) = "tnea"
  · rw [if_pos h, if_pos h]
    simp [process_query, tnea_process_processing_node]
  · rw [if_neg h, if_neg h]
    rfl
